import Mathlib

/-!
Verification development for the ProcessOut Go API client
(`src/invoice.go`, `src/refund.go`, `src/unnamed/part_000` =
TailoredInvoices, `src/unnamed/part_001` = Transactions).

Every operation in the source follows the same six-step shape: read the
variadic `options` parameter, marshal a `map[string]interface{}` body to
JSON, build an `http.Request` against `Host`, set headers and basic auth,
execute the request, decode the uniform `{success, message, error_type,
<resource>}` envelope and branch on `success`.  The embedding below
translates that shape faithfully: each operation is a `Call` constructor
whose `Call.spec` record carries exactly the parts that vary between the
generated functions (method, path, body fields, which headers are set,
which error value is built, which decoder runs), and `exec` is the common
control flow shared verbatim by every function in the source.

The environment (transport outcome, marshal/request-construction
success) is an explicit `World` oracle; the outcome of a Go call —
returned value, returned error, or panic — is the `Outcome` type.
-/

/- ---------------------------------------------------------------- -/
/- JSON values.  Mutual inductives (instead of a nested `List Json`)
   so that all recursion below is structural and kernel-reducible.    -/

mutual

inductive Json where
  | null
  | bool (b : Bool)
  | num (n : Nat)
  | str (s : String)
  | arr (elems : JsonArr)
  | obj (fields : JsonObj)

inductive JsonArr where
  | nil
  | cons (head : Json) (tail : JsonArr)

inductive JsonObj where
  | nil
  | cons (key : String) (val : Json) (tail : JsonObj)

end

/-- Build a `JsonObj` from a list of key/value pairs (literal helper). -/
def toJsonObj : List (String × Json) → JsonObj
  | [] => .nil
  | (k, v) :: rest => .cons k v (toJsonObj rest)

/-- Build a `JsonArr` from a list (literal helper). -/
def toJsonArr : List Json → JsonArr
  | [] => .nil
  | j :: rest => .cons j (toJsonArr rest)

/-- Object literal helper. -/
def jObj (fields : List (String × Json)) : Json := .obj (toJsonObj fields)

/-- Go's `encoding/json` field lookup on an object.  When a key occurs
twice Go's decoder processes entries in order so the last one wins. -/
def JsonObj.find : JsonObj → String → Option Json
  | .nil, _ => none
  | .cons k v rest, key =>
    match JsonObj.find rest key with
    | some v2 => some v2
    | none => if k = key then some v else none

/-- Lowercase hex digit, as used by Go's `\u00xx` escapes. -/
def hexDigitLower (n : Nat) : Char :=
  if n < 10 then Char.ofNat (48 + n) else Char.ofNat (87 + n)

/-- Uppercase hex digit, as used by Go's `net/url` percent-escapes. -/
def hexDigitUpper (n : Nat) : Char :=
  if n < 10 then Char.ofNat (48 + n) else Char.ofNat (55 + n)

/-- Go `encoding/json` string escaping (with the default HTML escaping
of `<`, `>`, `&` that `json.Marshal` applies). -/
def escapeJsonChar (c : Char) : List Char :=
  if c = '"' then ['\\', '"']
  else if c = '\\' then ['\\', '\\']
  else if c = '<' then ['\\', 'u', '0', '0', '3', 'c']
  else if c = '>' then ['\\', 'u', '0', '0', '3', 'e']
  else if c = '&' then ['\\', 'u', '0', '0', '2', '6']
  else if c = '\n' then ['\\', 'n']
  else if c = '\r' then ['\\', 'r']
  else if c = '\t' then ['\\', 't']
  else if c.toNat < 32 then
    ['\\', 'u', '0', '0', hexDigitLower (c.toNat / 16), hexDigitLower (c.toNat % 16)]
  else if c.toNat = 0x2028 then ['\\', 'u', '2', '0', '2', '8']
  else if c.toNat = 0x2029 then ['\\', 'u', '2', '0', '2', '9']
  else [c]

/-- Render a JSON string literal the way `json.Marshal` does. -/
def renderString (s : String) : String :=
  "\"" ++ String.mk (s.data.flatMap escapeJsonChar) ++ "\""

mutual

/-- Compact rendering matching `json.Marshal` output (no spaces). -/
def Json.render : Json → String
  | .null => "null"
  | .bool b => cond b "true" "false"
  | .num n => Nat.repr n
  | .str s => renderString s
  | .arr es => "[" ++ JsonArr.render es ++ "]"
  | .obj fs => "\x7b" ++ JsonObj.render fs ++ "\x7d"

def JsonArr.render : JsonArr → String
  | .nil => ""
  | .cons j .nil => Json.render j
  | .cons j (.cons j2 rest) => Json.render j ++ "," ++ JsonArr.render (.cons j2 rest)

def JsonObj.render : JsonObj → String
  | .nil => ""
  | .cons k v .nil => renderString k ++ ":" ++ Json.render v
  | .cons k v (.cons k2 v2 rest) =>
    renderString k ++ ":" ++ Json.render v ++ "," ++ JsonObj.render (.cons k2 v2 rest)

end

/-- Lexicographic order on char lists (Go compares map-key strings
byte-wise; the keys here are ASCII, where the two orders coincide). -/
def charListLt : List Char → List Char → Bool
  | [], [] => false
  | [], _ :: _ => true
  | _ :: _, [] => false
  | a :: as, b :: bs =>
    if a.toNat < b.toNat then true
    else if b.toNat < a.toNat then false
    else charListLt as bs

/-- String order used for the map-key sort. -/
def strLtB (a b : String) : Bool := charListLt a.data b.data

/-- Insertion step for the key sort `json.Marshal` performs on map keys. -/
def insertField (p : String × Json) : List (String × Json) → List (String × Json)
  | [] => [p]
  | q :: qs => if strLtB q.1 p.1 then q :: insertField p qs else p :: q :: qs

/-- Sort map entries by key, as `json.Marshal` does for Go maps. -/
def sortFields : List (String × Json) → List (String × Json)
  | [] => []
  | p :: ps => insertField p (sortFields ps)

/-- Go's `json.Marshal` of a `map[string]interface{}`: entries sorted by
key, rendered compactly. -/
def marshalMap (fields : List (String × Json)) : String :=
  Json.render (.obj (toJsonObj (sortFields fields)))

/- ---------------------------------------------------------------- -/
/- Go's `url.QueryEscape`, used by every source operation to place a
   caller-supplied identifier into the URL path.  It works on the UTF-8
   bytes of the string: alphanumerics and - _ . ~ are kept, the space
   byte becomes '+', every other byte becomes %XX with uppercase hex.  -/

/-- UTF-8 encoding of one character, as a list of byte values. -/
def utf8Encode (n : Nat) : List Nat :=
  if n < 0x80 then [n]
  else if n < 0x800 then [0xC0 + n / 0x40, 0x80 + n % 0x40]
  else if n < 0x10000 then
    [0xE0 + n / 0x1000, 0x80 + (n / 0x40) % 0x40, 0x80 + n % 0x40]
  else
    [0xF0 + n / 0x40000, 0x80 + (n / 0x1000) % 0x40, 0x80 + (n / 0x40) % 0x40,
     0x80 + n % 0x40]

/-- UTF-8 encoding of one character, as a list of byte values. -/
def utf8Bytes (c : Char) : List Nat := utf8Encode c.toNat

/-- UTF-8 bytes of a string. -/
def strBytes (s : String) : List Nat := s.data.flatMap utf8Bytes

/-- One byte under Go's `url.QueryEscape` (`shouldEscape` with
`encodeQueryComponent`): unreserved bytes kept, space to '+', the rest
percent-escaped. -/
def queryEscapeByte (b : Nat) : List Char :=
  if (97 ≤ b ∧ b ≤ 122) ∨ (65 ≤ b ∧ b ≤ 90) ∨ (48 ≤ b ∧ b ≤ 57) then [Char.ofNat b]
  else if b = 45 ∨ b = 95 ∨ b = 46 ∨ b = 126 then [Char.ofNat b]
  else if b = 32 then ['+']
  else ['%', hexDigitUpper (b / 16), hexDigitUpper (b % 16)]

/-- Go's `url.QueryEscape`. -/
def queryEscape (s : String) : String :=
  String.mk ((strBytes s).flatMap queryEscapeByte)

/-- Percent-encoding as the spec's words describe it ("percent-encoded"
path segments): every byte outside the RFC 3986 unreserved set becomes
%XX — in particular the space byte becomes "%20", never "+".  This
definition follows the spec, not the source; it exists only to compare
the spec's claim with what the source's `url.QueryEscape` produces. -/
def percentEncodeSpec (s : String) : String :=
  String.mk ((strBytes s).flatMap fun b =>
    if (97 ≤ b ∧ b ≤ 122) ∨ (65 ≤ b ∧ b ≤ 90) ∨ (48 ≤ b ∧ b ≤ 57)
        ∨ b = 45 ∨ b = 95 ∨ b = 46 ∨ b = 126 then [Char.ofNat b]
    else ['%', hexDigitUpper (b / 16), hexDigitUpper (b % 16)])

/- ---------------------------------------------------------------- -/
/- Data model. -/

/-- Modelled from the spec: the `ProcessOut` client struct is not under
src/; only its use sites are (`s.p.APIVersion`, `s.p.projectID`,
`s.p.projectSecret`, and `s.Client` on `Refund`).  Per spec section 3,
"Credentials": project identifier + project secret used via HTTP basic
auth, plus the configured API version; set once at construction. -/
structure ProcessOut where
  apiVersion : String := ""
  projectID : String := ""
  projectSecret : String := ""
deriving DecidableEq

/-- Modelled from the spec: the `Options` (CallOptions) struct is not
under src/; only its use sites are.  Fields per spec section 3:
`expand` (Go `[]string`; a nil slice marshals to JSON `null`),
`filter` (string; the Go zero value marshals to `""`),
`limit`/`page` and `end_before`/`start_after` (pagination),
`idempotencyKey` (string, forwarded as a header when non-empty),
`disableLogging` (bool, forwarded as a header when true). -/
structure Options where
  idempotencyKey : String := ""
  expand : Option (List String) := none
  filter : String := ""
  limit : Nat := 0
  page : Nat := 0
  endBefore : String := ""
  startAfter : String := ""
  disableLogging : Bool := false
deriving DecidableEq

/-- JSON value of an `Options.expand` slice (`nil` marshals to null). -/
def expandJson : Option (List String) → Json
  | none => .null
  | some l => .arr (toJsonArr (l.map .str))

/-- JSON value of a Go `map[string]string` (nil marshals to null,
otherwise an object with sorted keys). -/
def strMapJson : Option (List (String × String)) → Json
  | none => .null
  | some l => .obj (toJsonObj (sortFields (l.map fun p => (p.1, .str p.2))))

/-- The `Invoice` struct of src/invoice.go.  The linked-resource pointer
fields (`Project`, `Transaction`, `Customer`, `Subscription`) and the
`CreatedAt` timestamp are omitted: per spec section 1 the resource
schemas are opaque payloads, and no claim mentions those fields. -/
structure Invoice where
  id : String := ""
  url : String := ""
  name : String := ""
  amount : String := ""
  currency : String := ""
  metadata : Option (List (String × String)) := none
  requestEmail : Bool := false
  requestShipping : Bool := false
  returnURL : String := ""
  cancelURL : String := ""
  sandbox : Bool := false
deriving DecidableEq

/-- The `Transaction` struct of src/unnamed/part_001 (`CreatedAt`
omitted as an opaque payload field). -/
structure Transaction where
  id : String := ""
  status : String := ""
  fee : String := ""
  sandbox : Bool := false
deriving DecidableEq

/-- The `Refund` struct of src/refund.go.  `Client` is the ProcessOut
client pointer (`none` models a nil pointer); the `Transaction` child
pointer and `CreatedAt` are omitted as opaque payload fields. -/
structure Refund where
  client : Option ProcessOut := none
  id : String := ""
  reason : String := ""
  information : String := ""
  amount : String := ""
  metadata : Option (List (String × String)) := none
  sandbox : Bool := false
deriving DecidableEq

/-- The `TailoredInvoice` struct of src/unnamed/part_000 (`CreatedAt`
omitted as an opaque payload field). -/
structure TailoredInvoice where
  id : String := ""
  name : String := ""
  amount : String := ""
  currency : String := ""
  metadata : Option (List (String × String)) := none
  requestEmail : Bool := false
  requestShipping : Bool := false
  returnURL : String := ""
  cancelURL : String := ""
  custom : String := ""
deriving DecidableEq

/-- Modelled from the spec: the `Host` constant is not under src/.
Spec section 6: "HTTPS to a fixed host".  No claim depends on its
value. -/
def Host : String := "https://api.processout.com"

/-- Panic message of the variadic-options check, verbatim from every
operation in the source. -/
def optionsMsg : String := "The options parameter should only be provided once."

/-- Panic message of the nil-client check in `Refund.Find` /
`Refund.Apply` (src/refund.go lines 50-52 and 126-128), verbatim. -/
def refundClientMsg : String :=
  "Please use the client.NewRefund() method to create a new Refund object"

/-- The Go runtime's message for dereferencing a nil pointer, which is
what the non-Refund operations do (at `s.p.APIVersion`) when their
client pointer is nil: they have no explicit nil-client check. -/
def nilDerefMsg : String :=
  "runtime error: invalid memory address or nil pointer dereference"

/- ---------------------------------------------------------------- -/
/- Requests, outcomes, environment. -/

/-- An outbound HTTP request as the source builds it: method, full URL,
marshaled JSON body, headers (via `Header.Set`), basic-auth
credentials (`req.SetBasicAuth`). -/
structure HttpRequest where
  method : String
  url : String
  body : String
  headers : List (String × String)
  authUser : String
  authPass : String
deriving DecidableEq

/-- Go's `http.Header.Set`: replace an existing value for the key or
append the pair. -/
def setHeader (hs : List (String × String)) (k v : String) : List (String × String) :=
  if hs.any (fun p => p.1 == k) then hs.map (fun p => if p.1 == k then (k, v) else p)
  else hs ++ [(k, v)]

/-- Header lookup (Go's `Header.Get`). -/
def lookupHeader : List (String × String) → String → Option String
  | [], _ => none
  | (k, v) :: rest, key => if k = key then some v else lookupHeader rest key

/-- Header of a request. -/
def HttpRequest.getHeader (r : HttpRequest) (k : String) : Option String :=
  lookupHeader r.headers k

/-- The payload an operation returns on `success=true`: nothing for the
status-only operations, otherwise the decoded resource.  Pointer-typed
payloads (`*Refund`, the `[]*Transaction` elements) are `Option`s. -/
inductive Payload where
  | noPayload
  | invoice (i : Invoice)
  | refund (r : Option Refund)
  | transaction (t : Transaction)
  | transactions (ts : Option (List (Option Transaction)))
deriving DecidableEq

/-- `Refund.SetClient` applied to the decoded payload (src/refund.go
line 120): only `Refund.Find` does this. -/
def Payload.withClient (p : Payload) (po : ProcessOut) : Payload :=
  match p with
  | .refund (some r) => .refund (some { r with client := some po })
  | x => x

/-- The error values the source returns, by kind (spec section 7):
marshal failure, request-construction failure, transport failure,
envelope-decode failure; `apiError` is the `success=false` error built
from `error_type`/`message` (with the HTTP status for the Refund
operations, via `errors.NewFromResponse`); `plainError` is the bare
`errors.New(payload.Message)` the Transactions operations return. -/
inductive ErrValue where
  | marshalError
  | requestError
  | transportError (msg : String)
  | decodeError
  | apiError (code : String) (message : String) (status : Option Nat)
  | plainError (message : String)
deriving DecidableEq

/-- The server-provided error code carried by an error value, when it
carries one. -/
def ErrValue.codeOf : ErrValue → Option String
  | .apiError code _ _ => some code
  | _ => none

/-- The server-provided message carried by an error value, when it
carries one. -/
def ErrValue.msgOf : ErrValue → Option String
  | .apiError _ message _ => some message
  | .plainError message => some message
  | _ => none

/-- Result of one Go call: a returned payload, a returned error, or a
panic (Go `panic`) with its message. -/
inductive Outcome where
  | ok (payload : Payload)
  | err (e : ErrValue)
  | panicked (msg : String)
deriving DecidableEq

/-- True exactly on the success outcome. -/
def Outcome.isOk : Outcome → Bool
  | .ok _ => true
  | _ => false

/-- True exactly on a panic (abort) outcome. -/
def Outcome.isAbort : Outcome → Bool
  | .panicked _ => true
  | _ => false

/-- What the transport (`http.DefaultClient.Do`) produced: a network
failure, or a response with an HTTP status code and a JSON body. -/
inductive TransportResult where
  | failure (msg : String)
  | response (status : Nat) (body : Json)

/-- Environment oracle for one invocation: whether `json.Marshal` and
`http.NewRequest` succeed, and what the transport returns. -/
structure World where
  marshalOk : Bool
  newRequestOk : Bool
  transport : TransportResult

/- ---------------------------------------------------------------- -/
/- Envelope decoding.  Each Go operation declares a local `Response`
   struct and runs `json.NewDecoder(res.Body).Decode(payload)`.  The
   decoders below mirror Go's behavior for those struct shapes: a
   missing field keeps the zero value, JSON `null` is a no-op, a
   present field of the wrong type is a decode error, unknown fields
   are ignored, and a non-object (non-null) document is a decode
   error.                                                             -/

/-- Decode a string-typed struct field (Go `string`). -/
def decodeStrField (o : JsonObj) (key : String) : Except Unit String :=
  match o.find key with
  | none => .ok ""
  | some .null => .ok ""
  | some (.str s) => .ok s
  | some _ => .error ()

/-- Decode a bool-typed struct field (Go `bool`). -/
def decodeBoolField (o : JsonObj) (key : String) : Except Unit Bool :=
  match o.find key with
  | none => .ok false
  | some .null => .ok false
  | some (.bool b) => .ok b
  | some _ => .error ()

/-- Decode the entries of a JSON object into a Go `map[string]string`
(a `null` entry value stores the zero string). -/
def decodeStrPairs : JsonObj → Except Unit (List (String × String))
  | .nil => .ok []
  | .cons k v rest => do
    let tail ← decodeStrPairs rest
    match v with
    | .str s => .ok ((k, s) :: tail)
    | .null => .ok ((k, "") :: tail)
    | _ => .error ()

/-- Decode a `map[string]string` struct field (nil when missing/null). -/
def decodeStrMapField (o : JsonObj) (key : String) :
    Except Unit (Option (List (String × String))) :=
  match o.find key with
  | none => .ok none
  | some .null => .ok none
  | some (.obj fs) => (decodeStrPairs fs).map some
  | some _ => .error ()

/-- Decode a JSON value into the `Invoice` struct (an embedded,
non-pointer field: missing/null keeps the zero value). -/
def decodeInvoiceVal : Json → Except Unit Invoice
  | .null => .ok {}
  | .obj o => do
    let id ← decodeStrField o "id"
    let url ← decodeStrField o "url"
    let name ← decodeStrField o "name"
    let amount ← decodeStrField o "amount"
    let currency ← decodeStrField o "currency"
    let metadata ← decodeStrMapField o "metadata"
    let requestEmail ← decodeBoolField o "request_email"
    let requestShipping ← decodeBoolField o "request_shipping"
    let returnURL ← decodeStrField o "return_url"
    let cancelURL ← decodeStrField o "cancel_url"
    let sandbox ← decodeBoolField o "sandbox"
    .ok { id, url, name, amount, currency, metadata, requestEmail,
          requestShipping, returnURL, cancelURL, sandbox }
  | _ => .error ()

/-- Decode a JSON value into the `Transaction` struct. -/
def decodeTransactionVal : Json → Except Unit Transaction
  | .null => .ok {}
  | .obj o => do
    let id ← decodeStrField o "id"
    let status ← decodeStrField o "status"
    let fee ← decodeStrField o "fee"
    let sandbox ← decodeBoolField o "sandbox"
    .ok { id, status, fee, sandbox }
  | _ => .error ()

/-- Decode a JSON value into the `Refund` struct (decoded refunds carry
no client until `SetClient` runs). -/
def decodeRefundVal : Json → Except Unit Refund
  | .null => .ok {}
  | .obj o => do
    let id ← decodeStrField o "id"
    let reason ← decodeStrField o "reason"
    let information ← decodeStrField o "information"
    let amount ← decodeStrField o "amount"
    let metadata ← decodeStrMapField o "metadata"
    let sandbox ← decodeBoolField o "sandbox"
    .ok { client := none, id, reason, information, amount, metadata, sandbox }
  | _ => .error ()

/-- The decoded envelope: the fields every local `Response` struct has
(`success`, `message`), the `error_type` code for the structs that
declare it (`""` otherwise), and the payload field. -/
structure Envelope where
  success : Bool := false
  message : String := ""
  code : String := ""
  payload : Payload := .noPayload
deriving DecidableEq

/-- Envelope decoder for `Response{Success, Message, Code}` — the
status-only operations `Invoices.Authorize` (src/invoice.go 63-67) and
`Refund.Apply` (src/refund.go 138-142). -/
def decodeStatusEnv (j : Json) : Except Unit Envelope :=
  match j with
  | .null => .ok { payload := .noPayload }
  | .obj o => do
    let success ← decodeBoolField o "success"
    let message ← decodeStrField o "message"
    let code ← decodeStrField o "error_type"
    .ok { success, message, code, payload := .noPayload }
  | _ => .error ()

/-- Envelope decoder for `Response{Invoice, Success, Message, Code}`
with an embedded `Invoice` tagged `json:"invoice"` — `Invoices.Find`
(src/invoice.go 665-670) and `TailoredInvoices.Invoice`
(src/unnamed/part_000 53-58). -/
def decodeInvoiceEnv (j : Json) : Except Unit Envelope :=
  match j with
  | .null => .ok { payload := .invoice {} }
  | .obj o => do
    let success ← decodeBoolField o "success"
    let message ← decodeStrField o "message"
    let code ← decodeStrField o "error_type"
    let inv ← match o.find "invoice" with
      | none => .ok ({} : Invoice)
      | some v => decodeInvoiceVal v
    .ok { success, message, code, payload := .invoice inv }
  | _ => .error ()

/-- Envelope decoder for `Response{Refund *Refund, Success, Message,
Code}` — `Refund.Find` (src/refund.go 62-67). -/
def decodeRefundEnv (j : Json) : Except Unit Envelope :=
  match j with
  | .null => .ok { payload := .refund none }
  | .obj o => do
    let success ← decodeBoolField o "success"
    let message ← decodeStrField o "message"
    let code ← decodeStrField o "error_type"
    let r ← match o.find "refund" with
      | none => .ok (none : Option Refund)
      | some .null => .ok none
      | some v => (decodeRefundVal v).map some
    .ok { success, message, code, payload := .refund r }
  | _ => .error ()

/-- Decode the elements of a `[]*Transaction`. -/
def decodeTransactionList : JsonArr → Except Unit (List (Option Transaction))
  | .nil => .ok []
  | .cons j rest => do
    let tail ← decodeTransactionList rest
    match j with
    | .null => .ok (none :: tail)
    | v => do
      let t ← decodeTransactionVal v
      .ok (some t :: tail)

/-- Envelope decoder for `Response{Transactions []*Transaction,
Success, Message}` — `Transactions.All` (src/unnamed/part_001 41-45).
Note the struct has no `error_type` field, so the code stays `""` and
an ill-typed `error_type` in the body is ignored, unlike the other
resources. -/
def decodeTransactionsEnv (j : Json) : Except Unit Envelope :=
  match j with
  | .null => .ok { payload := .transactions none }
  | .obj o => do
    let success ← decodeBoolField o "success"
    let message ← decodeStrField o "message"
    let ts ← match o.find "transactions" with
      | none => .ok (none : Option (List (Option Transaction)))
      | some .null => .ok none
      | some (.arr es) => (decodeTransactionList es).map some
      | some _ => .error ()
    .ok { success, message, code := "", payload := .transactions ts }
  | _ => .error ()

/-- Envelope decoder for `Response{Transaction, Success, Message}` with
an embedded `Transaction` — `Transactions.Find` (src/unnamed/part_001
98-102).  Again no `error_type` field. -/
def decodeTransactionEnv (j : Json) : Except Unit Envelope :=
  match j with
  | .null => .ok { payload := .transaction {} }
  | .obj o => do
    let success ← decodeBoolField o "success"
    let message ← decodeStrField o "message"
    let t ← match o.find "transaction" with
      | none => .ok ({} : Transaction)
      | some v => decodeTransactionVal v
    .ok { success, message, code := "", payload := .transaction t }
  | _ => .error ()

/- ---------------------------------------------------------------- -/
/- The operation table and the shared executor. -/

/-- How an operation builds its `success=false` error:
`codeError` is the invoice/tailored-invoice pattern `erri :=
newError(errors.New(payload.Message)); erri.Code = payload.Code`;
`refundError` is `errors.NewFromResponse(res.StatusCode, payload.Code,
payload.Message)` (src/refund.go 114, 193); `bareError` is
`errors.New(payload.Message)` (src/unnamed/part_001 83, 140). -/
inductive ErrStyle where
  | codeError
  | refundError
  | bareError
deriving DecidableEq

/-- Build the `success=false` error value for a style.  The `*Error`
shape (`newError`, message + `Code`) and `errors.NewFromResponse`
(status + code + message) are not under src/ and are modelled from
spec section 7: ApiError "carries a server-provided error code
(errorType) and human-readable message, optionally the HTTP status
code". -/
def mkErr : ErrStyle → Nat → String → String → ErrValue
  | .codeError, _, code, message => .apiError code message none
  | .refundError, status, code, message => .apiError code message (some status)
  | .bareError, _, _, message => .plainError message

/-- The per-operation configuration: everything that varies between the
generated functions in the source.  `clientCheck` is the explicit
nil-client panic only the `Refund` methods have; `attachClient` is the
`payload.Refund.SetClient(s.Client)` call only `Refund.Find` makes;
`setsContentType` / `setsDisableLogging` record which header-setting
lines the function contains. -/
structure OpSpec where
  clientCheck : Bool
  attachClient : Bool
  method : String
  path : String
  bodyFields : Options → List (String × Json)
  setsContentType : Bool
  setsDisableLogging : Bool
  decodeEnv : Json → Except Unit Envelope
  errStyle : ErrStyle

/-- The embedded operations, covering every symbol the claims cite:
`Invoices.Authorize`, `Invoices.Find` (src/invoice.go),
`Refund.Find`, `Refund.Apply` (src/refund.go),
`TailoredInvoices.Invoice` (src/unnamed/part_000),
`Transactions.All`, `Transactions.Find` (src/unnamed/part_001).
Arguments other than `options` are carried by the constructor. -/
inductive Call where
  | invoicesAuthorize (invoice : Invoice) (source : String)
  | invoicesFind (invoiceID : String)
  | refundFind (transactionID : String) (refundID : String)
  | refundApply (r : Refund) (transactionID : String)
  | tailoredInvoicesInvoice (tailoredInvoice : TailoredInvoice)
  | transactionsAll
  | transactionsFind (transactionID : String)
deriving DecidableEq

/-- The configuration of each operation, read off its source function.
Body-field lists are in the order of the Go map literal (`marshalMap`
sorts them, as `json.Marshal` does). -/
def Call.spec : Call → OpSpec
  | .invoicesAuthorize invoice source =>
    -- src/invoice.go 54-117: POST /invoices/{id}/authorize
    { clientCheck := false, attachClient := false
      method := "POST"
      path := "/invoices/" ++ queryEscape invoice.id ++ "/authorize"
      bodyFields := fun opt =>
        [("source", .str source), ("expand", expandJson opt.expand),
         ("filter", .str opt.filter)]
      setsContentType := true, setsDisableLogging := true
      decodeEnv := decodeStatusEnv, errStyle := .codeError }
  | .invoicesFind invoiceID =>
    -- src/invoice.go 656-719: GET /invoices/{id}
    { clientCheck := false, attachClient := false
      method := "GET"
      path := "/invoices/" ++ queryEscape invoiceID
      bodyFields := fun opt =>
        [("expand", expandJson opt.expand), ("filter", .str opt.filter)]
      setsContentType := true, setsDisableLogging := true
      decodeEnv := decodeInvoiceEnv, errStyle := .codeError }
  | .refundFind transactionID refundID =>
    -- src/refund.go 49-122: GET /transactions/{tid}/refunds/{rid}
    { clientCheck := true, attachClient := true
      method := "GET"
      path := "/transactions/" ++ queryEscape transactionID ++ "/refunds/"
                ++ queryEscape refundID
      bodyFields := fun opt =>
        [("expand", expandJson opt.expand), ("filter", .str opt.filter),
         ("limit", .num opt.limit), ("page", .num opt.page),
         ("end_before", .str opt.endBefore), ("start_after", .str opt.startAfter)]
      setsContentType := true, setsDisableLogging := true
      decodeEnv := decodeRefundEnv, errStyle := .refundError }
  | .refundApply r transactionID =>
    -- src/refund.go 125-200: POST /transactions/{tid}/refunds
    { clientCheck := true, attachClient := false
      method := "POST"
      path := "/transactions/" ++ queryEscape transactionID ++ "/refunds"
      bodyFields := fun opt =>
        [("amount", .str r.amount), ("metadata", strMapJson r.metadata),
         ("reason", .str r.reason), ("information", .str r.information),
         ("expand", expandJson opt.expand), ("filter", .str opt.filter),
         ("limit", .num opt.limit), ("page", .num opt.page),
         ("end_before", .str opt.endBefore), ("start_after", .str opt.startAfter)]
      setsContentType := true, setsDisableLogging := true
      decodeEnv := decodeStatusEnv, errStyle := .refundError }
  | .tailoredInvoicesInvoice tailoredInvoice =>
    -- src/unnamed/part_000 44-107: POST /tailored-invoices/{id}/invoices
    { clientCheck := false, attachClient := false
      method := "POST"
      path := "/tailored-invoices/" ++ queryEscape tailoredInvoice.id ++ "/invoices"
      bodyFields := fun opt =>
        [("expand", expandJson opt.expand), ("filter", .str opt.filter)]
      setsContentType := true, setsDisableLogging := true
      decodeEnv := decodeInvoiceEnv, errStyle := .codeError }
  | .transactionsAll =>
    -- src/unnamed/part_001 32-86: GET /transactions; no Content-Type,
    -- no Disable-Logging line, body has only "expand"
    { clientCheck := false, attachClient := false
      method := "GET"
      path := "/transactions"
      bodyFields := fun opt => [("expand", expandJson opt.expand)]
      setsContentType := false, setsDisableLogging := false
      decodeEnv := decodeTransactionsEnv, errStyle := .bareError }
  | .transactionsFind transactionID =>
    -- src/unnamed/part_001 89-143: GET /transactions/{id}
    { clientCheck := false, attachClient := false
      method := "GET"
      path := "/transactions/" ++ queryEscape transactionID
      bodyFields := fun opt => [("expand", expandJson opt.expand)]
      setsContentType := false, setsDisableLogging := false
      decodeEnv := decodeTransactionEnv, errStyle := .bareError }

/-- Whether a call is one of the two `Transactions` operations. -/
def Call.isTransactionsOp : Call → Bool
  | .transactionsAll => true
  | .transactionsFind _ => true
  | _ => false

/-- Whether a call is one of the two `Refund` operations. -/
def Call.isRefundOp : Call → Bool
  | .refundFind _ _ => true
  | .refundApply _ _ => true
  | _ => false

/-- The effective `opt` value: `opt := Options{}; if len(options) == 1
{ opt = options[0] }`, as at the top of every operation. -/
def effOpt : List Options → Options
  | [o] => o
  | _ => {}

/-- The header block every operation builds with `req.Header.Set`:
Content-Type (when the function has that line), API-Version, Accept,
then Idempotency-Key when the option is non-empty and Disable-Logging
when the function has that line and the option is set. -/
def headersFor (sp : OpSpec) (apiVersion : String) (opt : Options) :
    List (String × String) :=
  let h1 := if sp.setsContentType
    then setHeader [] "Content-Type" "application/json" else []
  let h2 := setHeader h1 "API-Version" apiVersion
  let h3 := setHeader h2 "Accept" "application/json"
  let h4 := if opt.idempotencyKey ≠ ""
    then setHeader h3 "Idempotency-Key" opt.idempotencyKey else h3
  if sp.setsDisableLogging && opt.disableLogging
    then setHeader h4 "Disable-Logging" "true" else h4

/-- The request as built by `http.NewRequest` + header/auth setup. -/
def buildRequest (po : ProcessOut) (sp : OpSpec) (opt : Options) (body : String) :
    HttpRequest :=
  { method := sp.method
    url := Host ++ sp.path
    body := body
    headers := headersFor sp po.apiVersion opt
    authUser := po.projectID
    authPass := po.projectSecret }

/-- Steps after the request was issued: transport outcome, envelope
decode, branch on `success` (never on the HTTP status code; the status
only flows into the Refund-style error value). -/
def respond (sp : OpSpec) (po : ProcessOut) (t : TransportResult) : Outcome :=
  match t with
  | .failure m => .err (.transportError m)
  | .response status rbody =>
    match sp.decodeEnv rbody with
    | .error _ => .err .decodeError
    | .ok env =>
      if env.success = false then
        .err (mkErr sp.errStyle status env.code env.message)
      else
        .ok (if sp.attachClient then env.payload.withClient po else env.payload)

/-- The body of one operation after the options/client preamble:
marshal, build the request, dereference the client for the headers
(the non-Refund operations read `s.p.APIVersion` with no nil check),
issue the request, decode, branch.  Returns the outcome and the list
of requests issued. -/
def execOne (c : Option ProcessOut) (sp : OpSpec) (opt : Options) (w : World) :
    Outcome × List HttpRequest :=
  if w.marshalOk = false then (.err .marshalError, [])
  else if w.newRequestOk = false then (.err .requestError, [])
  else
    match c with
    | none => (.panicked nilDerefMsg, [])
    | some po =>
      let req := buildRequest po sp opt (marshalMap (sp.bodyFields opt))
      (respond sp po w.transport, [req])

/-- One full operation: the `Refund` nil-client check (when present),
the variadic-options check, then the shared body. -/
def exec (c : Option ProcessOut) (sp : OpSpec) (options : List Options) (w : World) :
    Outcome × List HttpRequest :=
  if sp.clientCheck && c.isNone then (.panicked refundClientMsg, [])
  else if 1 < options.length then (.panicked optionsMsg, [])
  else execOne c sp (effOpt options) w

/-- Run one embedded operation.  `c` is the client pointer (`s.p`, or
`s.Client` for the `Refund` methods); `none` models a nil pointer. -/
def run (c : Option ProcessOut) (call : Call) (options : List Options) (w : World) :
    Outcome × List HttpRequest :=
  exec c (Call.spec call) options w

/- ---------------------------------------------------------------- -/
/- Generic lemmas about the executor. -/

/-- The trace of an invocation is empty or a single request. -/
theorem exec_trace_length_le_one (c : Option ProcessOut) (sp : OpSpec)
    (options : List Options) (w : World) :
    (exec c sp options w).2.length ≤ 1 := by
  unfold exec execOne
  split
  · simp
  split
  · simp
  split
  · simp
  split
  · simp
  split
  · simp
  · simp

/-- With a client present, at most one options value, and successful
marshal and request construction, exactly one request is issued —
whatever the transport then does. -/
theorem exec_trace_length_eq_one (po : ProcessOut) (sp : OpSpec)
    (options : List Options) (w : World)
    (hopt : options.length ≤ 1) (hm : w.marshalOk = true)
    (hn : w.newRequestOk = true) :
    (exec (some po) sp options w).2.length = 1 := by
  unfold exec execOne
  have h1 : ¬ 1 < options.length := by omega
  simp [hm, hn, h1]

/-- Any request in the trace is the one `buildRequest` makes from the
effective options. -/
theorem mem_trace_eq (po : ProcessOut) (sp : OpSpec) (options : List Options)
    (w : World) (req : HttpRequest)
    (h : req ∈ (exec (some po) sp options w).2) :
    req = buildRequest po sp (effOpt options)
            (marshalMap (sp.bodyFields (effOpt options))) := by
  unfold exec execOne at h
  split at h
  · simp at h
  split at h
  · simp at h
  split at h
  · simp at h
  split at h
  · simp at h
  simp at h
  exact h

/-- Complete characterization of the headers an operation sets. -/
theorem headersFor_lookup (sp : OpSpec) (v : String) (opt : Options) :
    lookupHeader (headersFor sp v opt) "Accept" = some "application/json"
    ∧ lookupHeader (headersFor sp v opt) "API-Version" = some v
    ∧ lookupHeader (headersFor sp v opt) "Content-Type"
        = (if sp.setsContentType then some "application/json" else none)
    ∧ lookupHeader (headersFor sp v opt) "Idempotency-Key"
        = (if opt.idempotencyKey = "" then none else some opt.idempotencyKey)
    ∧ lookupHeader (headersFor sp v opt) "Disable-Logging"
        = (if sp.setsDisableLogging && opt.disableLogging then some "true" else none) := by
  cases hct : sp.setsContentType <;> cases hdl : sp.setsDisableLogging <;>
    cases hdlo : opt.disableLogging <;> by_cases hik : opt.idempotencyKey = "" <;>
    simp [headersFor, setHeader, lookupHeader, hct, hdl, hdlo, hik]

/-- The flags of the operation table: exactly the two `Transactions`
operations skip the Content-Type and Disable-Logging lines, and
exactly the two `Refund` operations check the client pointer. -/
theorem spec_flags (call : Call) :
    (Call.spec call).setsContentType = !call.isTransactionsOp
    ∧ (Call.spec call).setsDisableLogging = !call.isTransactionsOp
    ∧ (Call.spec call).clientCheck = call.isRefundOp := by
  cases call <;> simp [Call.spec, Call.isTransactionsOp, Call.isRefundOp]

/-- The `success` flag of the decoded envelope of an operation's
response body (decode failure when the body does not fit the local
`Response` struct). -/
def envSuccess (call : Call) (body : Json) : Except Unit Bool :=
  ((Call.spec call).decodeEnv body).map Envelope.success

/-- The success/error classification of the outcome after the request
was issued depends only on the decoded envelope's `success` flag,
never on the HTTP status code. -/
theorem respond_isOk_congr (sp : OpSpec) (po1 po2 : ProcessOut)
    (s1 s2 : Nat) (b1 b2 : Json)
    (h : (sp.decodeEnv b1).map Envelope.success
          = (sp.decodeEnv b2).map Envelope.success) :
    (respond sp po1 (.response s1 b1)).isOk = (respond sp po2 (.response s2 b2)).isOk := by
  unfold respond
  cases h1 : sp.decodeEnv b1 <;> cases h2 : sp.decodeEnv b2 <;>
    simp [h1, h2, Except.map] at h ⊢
  rw [h]
  cases hs : Envelope.success _ <;> simp [Outcome.isOk]

/-- With a client present, at most one options value, and successful
marshal and request construction, the outcome is `respond` applied to
the transport result. -/
theorem exec_outcome_eq_respond (po : ProcessOut) (sp : OpSpec)
    (options : List Options) (w : World)
    (hopt : options.length ≤ 1) (hm : w.marshalOk = true)
    (hn : w.newRequestOk = true) :
    (exec (some po) sp options w).1 = respond sp po w.transport := by
  unfold exec execOne
  have h1 : ¬ 1 < options.length := by omega
  simp [hm, hn, h1]

/-- On a decoded envelope with `success=false`, `respond` returns the
style's error built from the envelope's code and message. -/
theorem respond_failure (sp : OpSpec) (po : ProcessOut) (status : Nat)
    (body : Json) (env : Envelope)
    (hd : sp.decodeEnv body = .ok env) (hs : env.success = false) :
    respond sp po (.response status body)
      = .err (mkErr sp.errStyle status env.code env.message) := by
  unfold respond
  simp [hd, hs]

/-- On a decoded envelope with `success=true`, `respond` returns the
payload (with the client attached for `Refund.Find`). -/
theorem respond_success (sp : OpSpec) (po : ProcessOut) (status : Nat)
    (body : Json) (env : Envelope)
    (hd : sp.decodeEnv body = .ok env) (hs : env.success = true) :
    respond sp po (.response status body)
      = .ok (if sp.attachClient then env.payload.withClient po else env.payload) := by
  unfold respond
  simp [hd, hs]

/-- Supplying zero options and supplying one all-default options value
run identically (same outcome, same trace). -/
theorem exec_nil_eq_default (c : Option ProcessOut) (sp : OpSpec) (w : World) :
    exec c sp [] w = exec c sp [{}] w := by
  unfold exec
  simp [effOpt]

set_option maxRecDepth 4096 in
/-- No byte escapes to a string containing '/', '?' or '#' under
`url.QueryEscape`. -/
theorem queryEscapeByte_no_reserved : ∀ b : Fin 256,
    '/' ∉ queryEscapeByte b.val ∧ '?' ∉ queryEscapeByte b.val
      ∧ '#' ∉ queryEscapeByte b.val := by decide

/-- Every scalar value is below 0x110000. -/
theorem char_toNat_lt (c : Char) : c.toNat < 1114112 := by
  rcases c.valid with h | ⟨_, h2⟩
  · exact Nat.lt_trans h (by decide)
  · exact h2

/-- UTF-8 encoding produces bytes. -/
theorem utf8Bytes_lt (c : Char) : ∀ b ∈ utf8Bytes c, b < 256 := by
  intro b hb
  have hc := char_toNat_lt c
  unfold utf8Bytes utf8Encode at hb
  split at hb
  · simp at hb; omega
  split at hb
  · simp at hb
    rcases hb with hb | hb <;> omega
  split at hb
  · simp at hb
    rcases hb with hb | hb | hb <;> omega
  · simp at hb
    rcases hb with hb | hb | hb | hb <;> omega

/-- `url.QueryEscape` never leaves '/', '?' or '#' in its output: the
escaped identifier always stays a single path segment. -/
theorem queryEscape_no_reserved (s : String) :
    '/' ∉ (queryEscape s).data ∧ '?' ∉ (queryEscape s).data
      ∧ '#' ∉ (queryEscape s).data := by
  have key : ∀ ch, ch = '/' ∨ ch = '?' ∨ ch = '#' → ch ∉ (queryEscape s).data := by
    intro ch hch hmem
    have hdata : (queryEscape s).data = (strBytes s).flatMap queryEscapeByte := rfl
    rw [hdata, List.mem_flatMap] at hmem
    obtain ⟨b, hb, hchb⟩ := hmem
    have hblt : b < 256 := by
      unfold strBytes at hb
      rw [List.mem_flatMap] at hb
      obtain ⟨c, _, hbc⟩ := hb
      exact utf8Bytes_lt c b hbc
    have := queryEscapeByte_no_reserved ⟨b, hblt⟩
    rcases hch with rfl | rfl | rfl
    · exact this.1 hchb
    · exact this.2.1 hchb
    · exact this.2.2 hchb
  exact ⟨key _ (Or.inl rfl), key _ (Or.inr (Or.inl rfl)), key _ (Or.inr (Or.inr rfl))⟩

/-- The post-request phase never panics. -/
theorem respond_ne_panicked (sp : OpSpec) (po : ProcessOut) (t : TransportResult)
    (msg : String) : respond sp po t ≠ .panicked msg := by
  unfold respond
  rcases t with m | ⟨status, body⟩
  · simp
  · cases hd : sp.decodeEnv body <;> simp [hd]
    split <;> simp

/-- The only panic the shared body can raise is the nil-pointer
dereference of a nil client. -/
theorem execOne_panic_msg (c : Option ProcessOut) (sp : OpSpec) (opt : Options)
    (w : World) (msg : String) (h : (execOne c sp opt w).1 = .panicked msg) :
    msg = nilDerefMsg := by
  unfold execOne at h
  split at h
  · simp at h
  split at h
  · simp at h
  cases c
  · simp at h
    exact h.symm
  · exact absurd h (respond_ne_panicked _ _ _ _)

/-- Field contents of a `success=false` error value, by style: the
styles other than the bare Transactions one carry the code and the
message; the bare one is the message-only error. -/
theorem mkErr_fields (st : ErrStyle) (status : Nat) (code msg : String) :
    (st ≠ .bareError →
      (mkErr st status code msg).codeOf = some code
        ∧ (mkErr st status code msg).msgOf = some msg)
    ∧ (st = .bareError → mkErr st status code msg = .plainError msg) := by
  cases st <;> simp [mkErr, ErrValue.codeOf, ErrValue.msgOf]

/-- Exactly the `Transactions` operations build the bare
message-only error. -/
theorem errStyle_bare_iff (call : Call) :
    (Call.spec call).errStyle = .bareError ↔ call.isTransactionsOp = true := by
  cases call <;> simp [Call.spec, Call.isTransactionsOp]

/-- Headers of a built request. -/
theorem getHeader_buildRequest (po : ProcessOut) (sp : OpSpec) (opt : Options)
    (body : String) (k : String) :
    (buildRequest po sp opt body).getHeader k
      = lookupHeader (headersFor sp po.apiVersion opt) k := rfl

/-- Two options values that agree on `expand` and `idempotencyKey`
give the same headers for an operation that has neither the
Content-Type nor the Disable-Logging line. -/
theorem headersFor_congr (sp : OpSpec) (v : String) (o1 o2 : Options)
    (hct : sp.setsContentType = false) (hdl : sp.setsDisableLogging = false)
    (hkey : o1.idempotencyKey = o2.idempotencyKey) :
    headersFor sp v o1 = headersFor sp v o2 := by
  unfold headersFor
  simp [hct, hdl, hkey]

/-- Two options values whose body fields and headers agree give the
same trace. -/
theorem exec_trace_congr (po : ProcessOut) (sp : OpSpec) (o1 o2 : Options)
    (w : World) (hb : sp.bodyFields o1 = sp.bodyFields o2)
    (hh : headersFor sp po.apiVersion o1 = headersFor sp po.apiVersion o2) :
    (exec (some po) sp [o1] w).2 = (exec (some po) sp [o2] w).2 := by
  unfold exec execOne
  simp [effOpt, buildRequest, hb, hh]

/- ---------------------------------------------------------------- -/
/- Sample fixtures used by witnesses and counterexamples. -/

/-- A sample constructed client. -/
def samplePO : ProcessOut :=
  { apiVersion := "1.4.0.0", projectID := "test-proj", projectSecret := "test-secret" }

/-- A sample world whose transport fails (the request is still issued). -/
def refusedW : World := ⟨true, true, .failure "connection refused"⟩

/- ---------------------------------------------------------------- -/
/- Claims. -/

/-- C2: for every operation and every combination of other arguments,
supplying two or more Options values aborts with a panic before any
request is issued, regardless of their contents (with a constructed
client the panic is exactly the variadic-options message; a nil-client
Refund call panics even earlier, still issuing nothing); with at most
one Options value the options-abort branch is unreachable. -/
theorem c2_multiple_options_panics :
    (∀ po call options w, 2 ≤ options.length →
      (run (some po) call options w).1 = .panicked optionsMsg
        ∧ (run (some po) call options w).2 = [])
    ∧ (∀ c call options w, 2 ≤ options.length →
      (run c call options w).1.isAbort = true ∧ (run c call options w).2 = [])
    ∧ (∀ c call options w, options.length ≤ 1 →
      (run c call options w).1 ≠ .panicked optionsMsg) := by
  refine ⟨?_, ?_, ?_⟩
  · intro po call options w h
    have h1 : 1 < options.length := by omega
    unfold run exec
    simp [h1]
  · intro c call options w h
    have h1 : 1 < options.length := by omega
    unfold run exec
    by_cases hc : ((Call.spec call).clientCheck && c.isNone) = true
    · simp [hc, Outcome.isAbort]
    · simp [hc, h1, Outcome.isAbort]
  · intro c call options w h heq
    have h1 : ¬ 1 < options.length := by omega
    unfold run exec at heq
    by_cases hc : ((Call.spec call).clientCheck && c.isNone) = true
    · have hmsg : refundClientMsg = optionsMsg := by simpa [hc] using heq
      exact absurd hmsg (by decide)
    · simp [hc, h1] at heq
      have := execOne_panic_msg c (Call.spec call) (effOpt options) w optionsMsg heq
      exact absurd this (by decide)

/-- C2 witness: two empty Options values on `Transactions.All` panic
with the options message and issue no request. -/
theorem c2_multiple_options_panics_witness :
    2 ≤ ([{}, {}] : List Options).length
    ∧ (run (some samplePO) .transactionsAll [{}, {}] refusedW).1 = .panicked optionsMsg
    ∧ (run (some samplePO) .transactionsAll [{}, {}] refusedW).2 = [] := by
  refine ⟨by decide, ?_, ?_⟩
  · exact (c2_multiple_options_panics.1 samplePO .transactionsAll [{}, {}] refusedW
      (by decide)).1
  · exact (c2_multiple_options_panics.1 samplePO .transactionsAll [{}, {}] refusedW
      (by decide)).2

/-- C5: for every operation, every client, and every environment,
calling with zero Options values produces exactly the same request
trace and the same result as calling with one all-default Options
value. -/
theorem c5_zero_options_eq_default_options :
    ∀ c call w, run c call [] w = run c call [{}] w := by
  intro c call w
  exact exec_nil_eq_default c (Call.spec call) w

/-- C8: every invocation issues at most one request; with a client,
at most one Options value, and successful marshal and request
construction it issues exactly one — whatever the transport and the
envelope then do (no retries). -/
theorem c8_at_most_one_request :
    (∀ c call options w, (run c call options w).2.length ≤ 1)
    ∧ (∀ po call options w, options.length ≤ 1 → w.marshalOk = true →
        w.newRequestOk = true → (run (some po) call options w).2.length = 1) := by
  constructor
  · intro c call options w
    exact exec_trace_length_le_one c (Call.spec call) options w
  · intro po call options w h hm hn
    exact exec_trace_length_eq_one po (Call.spec call) options w h hm hn

/-- C8 witness: a concrete invocation (transport failure included)
issues exactly one request. -/
theorem c8_at_most_one_request_witness :
    ([({} : Options)] : List Options).length ≤ 1
    ∧ refusedW.marshalOk = true ∧ refusedW.newRequestOk = true
    ∧ (run (some samplePO) (.invoicesFind "inv_1") [{}] refusedW).2.length = 1 := by
  exact ⟨by decide, by decide, by decide,
    c8_at_most_one_request.2 samplePO (.invoicesFind "inv_1") [{}] refusedW
      (by decide) (by decide) (by decide)⟩

/-- C9: a `Refund` value with a nil client panics with the
`client.NewRefund` message on both `Find` and `Apply`, before reading
the options (even an over-long options list still hits this panic) and
before issuing any request; no other embedded operation ever raises
that panic, with or without a client. -/
theorem c9_refund_nil_client_panics :
    (∀ tid rid options w,
      run none (.refundFind tid rid) options w = (.panicked refundClientMsg, []))
    ∧ (∀ r tid options w,
      run none (.refundApply r tid) options w = (.panicked refundClientMsg, []))
    ∧ (∀ c call options w, call.isRefundOp = false →
      (run c call options w).1 ≠ .panicked refundClientMsg) := by
  refine ⟨?_, ?_, ?_⟩
  · intro tid rid options w
    unfold run exec
    simp [Call.spec]
  · intro r tid options w
    unfold run exec
    simp [Call.spec]
  · intro c call options w hcall heq
    have hcc : (Call.spec call).clientCheck = false := by
      rw [(spec_flags call).2.2, hcall]
    unfold run exec at heq
    rw [hcc] at heq
    simp at heq
    split at heq
    · have : optionsMsg = refundClientMsg := by simpa using heq
      exact absurd this (by decide)
    · have := execOne_panic_msg c (Call.spec call) (effOpt options) w refundClientMsg heq
      exact absurd this (by decide)

/-- C9 witness: concrete nil-client `Refund.Find` panic, and a
nil-client `Transactions.Find` never raises that message. -/
theorem c9_refund_nil_client_panics_witness :
    run none (.refundFind "tr_1" "ref_1") [] refusedW = (.panicked refundClientMsg, [])
    ∧ (Call.transactionsFind "tr_1").isRefundOp = false
    ∧ (run none (.transactionsFind "tr_1") [] refusedW).1 ≠ .panicked refundClientMsg := by
  refine ⟨c9_refund_nil_client_panics.1 "tr_1" "ref_1" [] refusedW, by decide,
    c9_refund_nil_client_panics.2.2 none (.transactionsFind "tr_1") [] refusedW (by decide)⟩

/-- The response body used by the C1 counterexample: a decoded envelope
with `success=false` and a non-empty `error_type`. -/
def c1Body : Json :=
  jObj [("success", .bool false), ("message", .str "payment failed"),
        ("error_type", .str "card.declined")]

/-- C1 counterexample: `Transactions.Find` on a `success=false`
envelope whose `error_type` is "card.declined" returns the bare
`errors.New(message)` error, which carries no code at all — the local
`Response` struct of the Transactions operations does not even decode
`error_type` — so the claim "the error's code equals the response's
error_type" fails for this operation. -/
theorem c1_transactions_error_has_no_code :
    (run (some samplePO) (.transactionsFind "tr_1") []
        ⟨true, true, .response 402 c1Body⟩).1 = .err (.plainError "payment failed")
    ∧ (match c1Body with | .obj o => o.find "error_type" | _ => none)
        = some (.str "card.declined")
    ∧ (ErrValue.plainError "payment failed").codeOf = none
    ∧ (ErrValue.plainError "payment failed").codeOf ≠ some "card.declined" := by
  refine ⟨by decide, by rfl, by decide, by decide⟩

/-- C1 amended: for every operation, a response whose envelope decodes
with `success=false` yields no payload and the operation's error value
built from the decoded envelope; for every operation except the two
Transactions ones that error carries a code equal to the envelope's
`error_type` and a message equal to its `message`, while the
Transactions operations return a bare error carrying only the message
(their Response struct has no `error_type` field). -/
theorem c1_amended_failure_error_fields :
    ∀ po call options status body env,
      options.length ≤ 1 →
      (Call.spec call).decodeEnv body = .ok env →
      env.success = false →
      (run (some po) call options ⟨true, true, .response status body⟩).1
          = .err (mkErr (Call.spec call).errStyle status env.code env.message)
      ∧ (run (some po) call options ⟨true, true, .response status body⟩).1.isOk = false
      ∧ (call.isTransactionsOp = false →
          (mkErr (Call.spec call).errStyle status env.code env.message).codeOf
              = some env.code
          ∧ (mkErr (Call.spec call).errStyle status env.code env.message).msgOf
              = some env.message)
      ∧ (call.isTransactionsOp = true →
          mkErr (Call.spec call).errStyle status env.code env.message
            = .plainError env.message) := by
  intro po call options status body env hopt hd hs
  have h1 : (run (some po) call options ⟨true, true, .response status body⟩).1
      = .err (mkErr (Call.spec call).errStyle status env.code env.message) := by
    unfold run
    rw [exec_outcome_eq_respond po (Call.spec call) options _ hopt rfl rfl]
    exact respond_failure (Call.spec call) po status body env hd hs
  refine ⟨h1, by rw [h1]; rfl, ?_, ?_⟩
  · intro ht
    have hne : (Call.spec call).errStyle ≠ .bareError := by
      intro hbare
      rw [(errStyle_bare_iff call).mp hbare] at ht
      cases ht
    exact (mkErr_fields (Call.spec call).errStyle status env.code env.message).1 hne
  · intro ht
    exact (mkErr_fields (Call.spec call).errStyle status env.code env.message).2
      ((errStyle_bare_iff call).mpr ht)

/-- The envelope the C1 witness body decodes to. -/
def c1Env : Envelope :=
  { success := false, message := "payment failed", code := "card.declined",
    payload := .invoice {} }

/-- C1 amended witness: `Invoices.Find` on the same `success=false`
body returns the code-carrying error. -/
theorem c1_amended_failure_error_fields_witness :
    ([] : List Options).length ≤ 1
    ∧ (Call.spec (.invoicesFind "inv_1")).decodeEnv c1Body = .ok c1Env
    ∧ c1Env.success = false
    ∧ (run (some samplePO) (.invoicesFind "inv_1") []
        ⟨true, true, .response 402 c1Body⟩).1
        = .err (mkErr (Call.spec (.invoicesFind "inv_1")).errStyle 402
            c1Env.code c1Env.message) := by
  refine ⟨by decide, by rfl, by decide, ?_⟩
  exact (c1_amended_failure_error_fields samplePO (.invoicesFind "inv_1") [] 402
    c1Body c1Env (by decide) (by rfl) (by decide)).1

/-- C3 counterexample: `Transactions.All` with DisableLogging set and a
non-empty IdempotencyKey issues exactly one request, and that request
carries neither a Content-Type nor a Disable-Logging header — the
Transactions operations have no such header-setting lines
(src/unnamed/part_001 lines 64-68), refuting "for every operation". -/
theorem c3_transactions_missing_headers :
    ((run (some samplePO) .transactionsAll
        [{ idempotencyKey := "idem-1", disableLogging := true }] refusedW).2.map
      fun r => (r.getHeader "Content-Type", r.getHeader "Disable-Logging"))
      = [(none, none)] := by decide

/-- The header contract an issued request satisfies (used by the C3
amended theorem and its witness). -/
def headerContract (po : ProcessOut) (call : Call) (options : List Options)
    (req : HttpRequest) : Prop :=
  req.getHeader "Accept" = some "application/json"
  ∧ req.getHeader "API-Version" = some po.apiVersion
  ∧ req.getHeader "Idempotency-Key"
      = (if (effOpt options).idempotencyKey = "" then none
         else some (effOpt options).idempotencyKey)
  ∧ (call.isTransactionsOp = false →
      req.getHeader "Content-Type" = some "application/json"
      ∧ req.getHeader "Disable-Logging"
          = (if (effOpt options).disableLogging then some "true" else none))
  ∧ (call.isTransactionsOp = true →
      req.getHeader "Content-Type" = none
      ∧ req.getHeader "Disable-Logging" = none)

/-- C3 amended: every issued request carries Accept and API-Version;
it carries Idempotency-Key exactly when the supplied Options'
IdempotencyKey is non-empty; the non-Transactions operations
additionally carry Content-Type: application/json and carry
Disable-Logging: true exactly when the Options' DisableLogging is
true, while the two Transactions operations never carry Content-Type
or Disable-Logging. -/
theorem c3_amended_request_headers :
    ∀ po call options w req, req ∈ (run (some po) call options w).2 →
      headerContract po call options req := by
  intro po call options w req hreq
  have hr := mem_trace_eq po (Call.spec call) options w req hreq
  subst hr
  have hl := headersFor_lookup (Call.spec call) po.apiVersion (effOpt options)
  have hf := spec_flags call
  refine ⟨hl.1, hl.2.1, hl.2.2.2.1, ?_, ?_⟩
  · intro ht
    constructor
    · rw [getHeader_buildRequest, hl.2.2.1, hf.1, ht]
      rfl
    · rw [getHeader_buildRequest, hl.2.2.2.2, hf.2.1, ht]
      simp
  · intro ht
    constructor
    · rw [getHeader_buildRequest, hl.2.2.1, hf.1, ht]
      rfl
    · rw [getHeader_buildRequest, hl.2.2.2.2, hf.2.1, ht]
      rfl

/-- The request the C3 witness call issues. -/
def c3Req : HttpRequest :=
  buildRequest samplePO (Call.spec (.invoicesFind "inv_1"))
    { idempotencyKey := "idem-1", disableLogging := true }
    (marshalMap ((Call.spec (.invoicesFind "inv_1")).bodyFields
      { idempotencyKey := "idem-1", disableLogging := true }))

/-- C3 amended witness: the concrete `Invoices.Find` request satisfies
the header contract. -/
theorem c3_amended_request_headers_witness :
    c3Req ∈ (run (some samplePO) (.invoicesFind "inv_1")
        [{ idempotencyKey := "idem-1", disableLogging := true }] refusedW).2
    ∧ headerContract samplePO (.invoicesFind "inv_1")
        [{ idempotencyKey := "idem-1", disableLogging := true }] c3Req := by
  have htr : (run (some samplePO) (.invoicesFind "inv_1")
      [{ idempotencyKey := "idem-1", disableLogging := true }] refusedW).2 = [c3Req] := rfl
  have hmem : c3Req ∈ (run (some samplePO) (.invoicesFind "inv_1")
      [{ idempotencyKey := "idem-1", disableLogging := true }] refusedW).2 := by
    rw [htr]
    exact List.mem_singleton_self _
  exact ⟨hmem, c3_amended_request_headers samplePO (.invoicesFind "inv_1")
    [{ idempotencyKey := "idem-1", disableLogging := true }] refusedW c3Req hmem⟩

/-- C4: whether a call classifies as success is determined solely by
the decoded envelope's `success` flag: two runs whose response bodies
decode to envelopes with the same flag (in particular, the same body
under different HTTP status codes) classify identically, and whenever
the flag is true the payload is returned. -/
theorem c4_success_flag_determines_outcome :
    (∀ c call options m n s1 s2 b1 b2,
      envSuccess call b1 = envSuccess call b2 →
      (run c call options ⟨m, n, .response s1 b1⟩).1.isOk
        = (run c call options ⟨m, n, .response s2 b2⟩).1.isOk)
    ∧ (∀ po call options status body env,
      options.length ≤ 1 →
      (Call.spec call).decodeEnv body = .ok env →
      env.success = true →
      (run (some po) call options ⟨true, true, .response status body⟩).1.isOk
        = true) := by
  constructor
  · intro c call options m n s1 s2 b1 b2 h
    unfold run exec
    by_cases hc : ((Call.spec call).clientCheck && c.isNone) = true
    · simp [hc]
    by_cases hlen : 1 < options.length
    · simp [hc, hlen]
    simp only [hc, hlen, if_false, Bool.not_eq_true]
    unfold execOne
    cases m
    · simp
    cases n
    · simp
    cases c
    · simp
    · simp only
      exact respond_isOk_congr (Call.spec call) _ _ s1 s2 b1 b2 h
  · intro po call options status body env hopt hd hs
    unfold run
    rw [exec_outcome_eq_respond po (Call.spec call) options _ hopt rfl rfl]
    rw [respond_success (Call.spec call) po status body env hd hs]
    rfl

/-- The success body used by the C4 witness. -/
def c4Body : Json :=
  jObj [("success", .bool true),
        ("invoice", jObj [("id", .str "inv_1"), ("name", .str "Test")])]

/-- The envelope the C4 witness body decodes to. -/
def c4Env : Envelope :=
  { success := true, message := "", code := "",
    payload := .invoice { id := "inv_1", name := "Test" } }

/-- C4 witness: the same body under HTTP 200 and HTTP 500 classifies
identically, and the success body yields the payload. -/
theorem c4_success_flag_determines_outcome_witness :
    (envSuccess (.invoicesFind "inv_1") c4Body
        = envSuccess (.invoicesFind "inv_1") c4Body
      ∧ (run (some samplePO) (.invoicesFind "inv_1") []
          ⟨true, true, .response 200 c4Body⟩).1.isOk
        = (run (some samplePO) (.invoicesFind "inv_1") []
          ⟨true, true, .response 500 c4Body⟩).1.isOk)
    ∧ (([] : List Options).length ≤ 1
      ∧ (Call.spec (.invoicesFind "inv_1")).decodeEnv c4Body = .ok c4Env
      ∧ c4Env.success = true
      ∧ (run (some samplePO) (.invoicesFind "inv_1") []
          ⟨true, true, .response 200 c4Body⟩).1.isOk = true) := by
  refine ⟨⟨rfl, ?_⟩, by decide, by rfl, by decide, ?_⟩
  · exact c4_success_flag_determines_outcome.1 (some samplePO) (.invoicesFind "inv_1")
      [] true true 200 500 c4Body c4Body rfl
  · exact c4_success_flag_determines_outcome.2 samplePO (.invoicesFind "inv_1")
      [] 200 c4Body c4Env (by decide) (by rfl) (by decide)

/-- The success response body of the C6 scenario. -/
def c6Body : Json :=
  jObj [("success", .bool true),
        ("invoice", jObj [("id", .str "inv_123"), ("name", .str "Test")])]

/-- The world of the C6 scenario. -/
def c6W : World := ⟨true, true, .response 200 c6Body⟩

/-- C6 counterexample: the body `Invoices.Find` actually sends with
zero options is `{"expand":null,"filter":""}` — the zero value of the
string-typed `filter` option marshals to the empty string, not to
`null` as the claim states. -/
theorem c6_find_body_filter_not_null :
    ((run (some samplePO) (.invoicesFind "inv_123") [] c6W).2.map HttpRequest.body)
      = ["\x7b\"expand\":null,\"filter\":\"\"\x7d"]
    ∧ "\x7b\"expand\":null,\"filter\":\"\"\x7d"
        ≠ "\x7b\"expand\":null,\"filter\":null\x7d" := by
  exact ⟨by decide, by decide⟩

/-- The request the C6 scenario issues. -/
def c6Req : HttpRequest :=
  buildRequest samplePO (Call.spec (.invoicesFind "inv_123")) {}
    (marshalMap ((Call.spec (.invoicesFind "inv_123")).bodyFields {}))

/-- C6 amended: finding invoice "inv_123" with no options issues one
GET to Host ++ /invoices/inv_123 with basic auth and the JSON body
`{"expand":null,"filter":""}` (empty-string filter, not null), and the
response body `{"success":true,"invoice":{"id":"inv_123","name":"Test"}}`
yields the payload with id "inv_123" and no error. -/
theorem c6_amended_find_scenario :
    (run (some samplePO) (.invoicesFind "inv_123") [] c6W)
      = (.ok (.invoice { id := "inv_123", name := "Test" }), [c6Req])
    ∧ c6Req.method = "GET"
    ∧ c6Req.url = Host ++ "/invoices/inv_123"
    ∧ c6Req.body = "\x7b\"expand\":null,\"filter\":\"\"\x7d"
    ∧ c6Req.authUser = samplePO.projectID
    ∧ c6Req.authPass = samplePO.projectSecret
    ∧ Json.render c6Body
        = "\x7b\"success\":true,\"invoice\":\x7b\"id\":\"inv_123\",\"name\":\"Test\"\x7d\x7d" := by
  refine ⟨by decide, by decide, by decide, by decide, by decide, by decide, by decide⟩

/-- C7 counterexample: the identifier "a b" (a space, which the claim
explicitly covers) is not percent-encoded in the path: the request URL
ends in "a+b" where percent-encoding produces "a%20b" —
`url.QueryEscape` is query escaping, not path percent-encoding. -/
theorem c7_space_not_percent_encoded :
    ((run (some samplePO) (.invoicesFind "a b") [] refusedW).2.map HttpRequest.url)
      = [Host ++ ("/invoices/" ++ "a+b")]
    ∧ queryEscape "a b" = "a+b"
    ∧ percentEncodeSpec "a b" = "a%20b"
    ∧ "a+b" ≠ "a%20b" := by
  exact ⟨by decide, by decide, by decide, by decide⟩

/-- C7 amended: caller-supplied identifiers are escaped with Go's
`url.QueryEscape` before being embedded in the path.  The escaped
identifier never contains '/', '?' or '#' (those reserved bytes become
%2F, %3F, %23), so it always stays a single path segment of the fixed
template — but a space becomes '+', not the percent-encoding "%20". -/
theorem c7_amended_query_escaped_single_segment :
    (∀ s, '/' ∉ (queryEscape s).data ∧ '?' ∉ (queryEscape s).data
        ∧ '#' ∉ (queryEscape s).data)
    ∧ queryEscape "a/b?c#d e" = "a%2Fb%3Fc%23d+e"
    ∧ (∀ po iid options w req,
        req ∈ (run (some po) (.invoicesFind iid) options w).2 →
        req.url = Host ++ ("/invoices/" ++ queryEscape iid))
    ∧ (∀ po tid rid options w req,
        req ∈ (run (some po) (.refundFind tid rid) options w).2 →
        req.url
          = Host ++ ("/transactions/" ++ queryEscape tid ++ "/refunds/"
              ++ queryEscape rid)) := by
  refine ⟨queryEscape_no_reserved, by decide, ?_, ?_⟩
  · intro po iid options w req hreq
    have hr := mem_trace_eq po (Call.spec (.invoicesFind iid)) options w req hreq
    subst hr
    rfl
  · intro po tid rid options w req hreq
    have hr := mem_trace_eq po (Call.spec (.refundFind tid rid)) options w req hreq
    subst hr
    rfl

/-- The request the C7 witness call issues. -/
def c7Req : HttpRequest :=
  buildRequest samplePO (Call.spec (.invoicesFind "a b")) {}
    (marshalMap ((Call.spec (.invoicesFind "a b")).bodyFields {}))

/-- C7 amended witness: concrete instance of the path-shape facts. -/
theorem c7_amended_query_escaped_single_segment_witness :
    ('/' ∉ (queryEscape "a/b?c#d e").data ∧ '?' ∉ (queryEscape "a/b?c#d e").data
      ∧ '#' ∉ (queryEscape "a/b?c#d e").data)
    ∧ c7Req ∈ (run (some samplePO) (.invoicesFind "a b") [] refusedW).2
    ∧ c7Req.url = Host ++ ("/invoices/" ++ queryEscape "a b") := by
  have htr : (run (some samplePO) (.invoicesFind "a b") [] refusedW).2 = [c7Req] := rfl
  have hmem : c7Req ∈ (run (some samplePO) (.invoicesFind "a b") [] refusedW).2 := by
    rw [htr]
    exact List.mem_singleton_self _
  exact ⟨c7_amended_query_escaped_single_segment.1 "a/b?c#d e", hmem,
    c7_amended_query_escaped_single_segment.2.2.1 samplePO "a b" [] refusedW c7Req hmem⟩

/-- C10: for `Transactions.All` and `Transactions.Find`, two calls
whose Options agree on `expand` and `idempotencyKey` issue identical
requests: the Transactions operations marshal only `expand` into the
body and have no Disable-Logging line, so `filter`, `limit`, `page`,
`endBefore`, `startAfter` and `disableLogging` cannot influence the
request. -/
theorem c10_transactions_request_independent_of_other_options :
    ∀ po tid o1 o2 w,
      o1.expand = o2.expand → o1.idempotencyKey = o2.idempotencyKey →
      (run (some po) .transactionsAll [o1] w).2
          = (run (some po) .transactionsAll [o2] w).2
      ∧ (run (some po) (.transactionsFind tid) [o1] w).2
          = (run (some po) (.transactionsFind tid) [o2] w).2 := by
  intro po tid o1 o2 w hexp hkey
  constructor
  · apply exec_trace_congr
    · simp [Call.spec, hexp]
    · exact headersFor_congr _ _ _ _ rfl rfl hkey
  · apply exec_trace_congr
    · simp [Call.spec, hexp]
    · exact headersFor_congr _ _ _ _ rfl rfl hkey

/-- First C10 witness option value: everything set. -/
def c10OptA : Options :=
  { idempotencyKey := "k", expand := some ["customer"], filter := "f",
    limit := 5, page := 2, endBefore := "x", startAfter := "y",
    disableLogging := true }

/-- Second C10 witness option value: only the two relevant fields. -/
def c10OptB : Options := { idempotencyKey := "k", expand := some ["customer"] }

/-- C10 witness: the two concrete options differ in filter, limit,
page, cursors and disableLogging but agree on expand/idempotencyKey,
and the issued requests are identical. -/
theorem c10_transactions_request_independent_witness :
    c10OptA.expand = c10OptB.expand
    ∧ c10OptA.idempotencyKey = c10OptB.idempotencyKey
    ∧ (run (some samplePO) .transactionsAll [c10OptA] refusedW).2
        = (run (some samplePO) .transactionsAll [c10OptB] refusedW).2
    ∧ (run (some samplePO) (.transactionsFind "tr_1") [c10OptA] refusedW).2
        = (run (some samplePO) (.transactionsFind "tr_1") [c10OptB] refusedW).2 := by
  have h := c10_transactions_request_independent_of_other_options samplePO "tr_1"
    c10OptA c10OptB refusedW rfl rfl
  exact ⟨rfl, rfl, h.1, h.2⟩
